import Mathlib

/-!
Shallow embedding of `src/src/murmur/GeoIpResolver.h`: an asynchronous
IP-geolocation lookup client.  The dispatcher (`resolve`) registers a
completion handler under the lookup key and issues an HTTP GET whose URL
embeds the key; the correlator (`finishRequest`) re-derives the key from the
completed request URL, removes the pending handler, interprets the response
body and invokes the handler with a `GeoIpInformation` value.

The HTTP transport and the JSON text parser are external collaborators of
this core, so they appear here as parameters: a completed transport event is
a `Reply` record, and JSON parsing is an explicit argument
`parse : String → Except String Json` returning either a diagnostic or the
parsed object (modelled as an association list of string/number fields, the
only field kinds the payload schema uses).
-/

set_option autoImplicit false

/-- Status enumeration `GeoIpStatus` from the header. -/
inductive GeoIpStatus where
  | SUCCESS
  | FAIL
  | TIMEOUT
deriving DecidableEq

/-- A JSON field value as used by the payload schema: textual fields are
strings, `lat` and `lon` are numbers (embedded as rationals, since the code
only ever copies them through unchanged). -/
inductive JsonVal where
  | str : String → JsonVal
  | num : Rat → JsonVal
deriving DecidableEq

/-- A parsed JSON object: the fields in document order. -/
abbrev Json := List (String × JsonVal)

/-- Membership test `jsonData.contains(k)` of the JSON library. -/
def Json.containsKey (j : Json) (k : String) : Bool :=
  j.any (fun p => p.1 == k)

/-- Field access `jsonData[k]` of the JSON library: the first field named
`k`, if any. -/
def Json.getVal (j : Json) (k : String) : Option JsonVal :=
  (j.find? (fun p => p.1 == k)).map (fun p => p.2)

/-- String-typed `jsonData.value(k, d)` of the JSON library: the value of
field `k` when present, the default `d` when absent.  (When the field is
present with a non-string value the original library raises a type error
that the code does not catch; no settled claim exercises that case, and this
embedding returns the default there.) -/
def Json.valueStr (j : Json) (k : String) (d : String) : String :=
  match Json.getVal j k with
  | some (JsonVal.str s) => s
  | _ => d

/-- Number-typed `jsonData.value(k, d)`, same conventions as
`Json.valueStr`. -/
def Json.valueNum (j : Json) (k : String) (d : Rat) : Rat :=
  match Json.getVal j k with
  | some (JsonVal.num q) => q
  | _ => d

/-- `GeoIpSuccessData` from the header: the twelve payload fields. -/
structure GeoIpSuccessData where
  country : String
  countryCode : String
  region : String
  regionName : String
  city : String
  zip : String
  lat : Rat
  lon : Rat
  timezone : String
  isp : String
  org : String
  as : String
deriving DecidableEq

/-- `GeoIpInformation` from the header: the result delivered to a handler. -/
structure GeoIpInformation where
  query : String
  status : GeoIpStatus
  data : Option GeoIpSuccessData
  message : Option String
deriving DecidableEq

/-- The callback map `m_CallbackMap`: lookup key to registered handler, with
the handlers drawn from an arbitrary type `κ`.  `std::map` keys are unique;
the operations below preserve uniqueness and find or erase the first match. -/
abbrev CallbackMap (κ : Type) := List (String × κ)

/-- `m_CallbackMap.find(k)`: the handler registered under `k`, if any. -/
def mapFind {κ : Type} (k : String) : CallbackMap κ → Option κ
  | [] => none
  | (k₀, v₀) :: rest => if k₀ = k then some v₀ else mapFind k rest

/-- `m_CallbackMap[k] = v`: overwrite the entry for `k` when present,
append a fresh entry otherwise. -/
def mapInsert {κ : Type} (k : String) (v : κ) : CallbackMap κ → CallbackMap κ
  | [] => [(k, v)]
  | (k₀, v₀) :: rest => if k₀ = k then (k, v) :: rest else (k₀, v₀) :: mapInsert k v rest

/-- `m_CallbackMap.erase(it)` for the iterator produced by `find`: remove
the first entry keyed `k`. -/
def mapErase {κ : Type} (k : String) : CallbackMap κ → CallbackMap κ
  | [] => []
  | (k₀, v₀) :: rest => if k₀ = k then rest else (k₀, v₀) :: mapErase k rest

/-- The outbound request URL built by `resolve`:
`"http://ip-api.com/json/" + connectionString`. -/
def requestUrl (connectionString : String) : String :=
  "http://ip-api.com/json/" ++ connectionString

/-- Observable side effects of one `resolve` call, in program order. -/
inductive ResolveEvent (κ : Type) where
  | issueRequest : String → ResolveEvent κ
  | register : String → κ → ResolveEvent κ
deriving DecidableEq

/-- `GeoIpResolver::resolve`: build the request, hand it to the transport
(`m_Manager->get(request)`), and only afterwards store the callback in
`m_CallbackMap` under the lock.  The returned event list records the order
in which the two side effects happen in the source: the request is issued
first, the registration happens second. -/
def resolve {κ : Type} (connectionString : String) (callback : κ)
    (m : CallbackMap κ) : CallbackMap κ × List (ResolveEvent κ) :=
  (mapInsert connectionString callback m,
   [ResolveEvent.issueRequest (requestUrl connectionString),
    ResolveEvent.register connectionString callback])

/-- Key re-derivation in `finishRequest`:
`connectionString.erase(0, connectionString.find_last_of(47) + 1)` keeps
everything after the last slash.  When the URL has no slash, `find_last_of`
yields `npos` and `npos + 1` wraps to `0`, so the string is left unchanged;
taking from the reversed list until a slash appears reproduces both cases. -/
def extractKey (url : String) : String :=
  String.mk (((url.data.reverse).takeWhile (fun c => c != '/')).reverse)

/-- `data.trimmed().isEmpty()`: the body consists only of the six ASCII
whitespace characters trimmed by the byte-array library. -/
def trimmedIsEmpty (s : String) : Bool :=
  s.data.all (fun c =>
    c == ' ' || c == '\t' || c == '\n' || c == '\x0b' || c == '\x0c' || c == '\r')

/-- `parseStatus`: SUCCESS exactly for a `status` field equal to the string
"success"; FAIL for any other value and for an absent field. -/
def parseStatus (jsonData : Json) : GeoIpStatus :=
  if Json.containsKey jsonData "status" then
    if Json.getVal jsonData "status" = some (JsonVal.str "success") then
      GeoIpStatus.SUCCESS
    else
      GeoIpStatus.FAIL
  else
    GeoIpStatus.FAIL

/-- The success-branch population of `GeoIpSuccessData`: each of the twelve
fields read with `jsonData.value`, textual defaults empty, numeric defaults
zero. -/
def successData (jsonData : Json) : GeoIpSuccessData :=
  { country := Json.valueStr jsonData "country" ""
    countryCode := Json.valueStr jsonData "countryCode" ""
    region := Json.valueStr jsonData "region" ""
    regionName := Json.valueStr jsonData "regionName" ""
    city := Json.valueStr jsonData "city" ""
    zip := Json.valueStr jsonData "zip" ""
    lat := Json.valueNum jsonData "lat" 0
    lon := Json.valueNum jsonData "lon" 0
    timezone := Json.valueStr jsonData "timezone" ""
    isp := Json.valueStr jsonData "isp" ""
    org := Json.valueStr jsonData "org" ""
    as := Json.valueStr jsonData "as" "" }

/-- Body interpretation in `finishRequest`, after the map entry has been
removed: the `GeoIpInformation` handed to the callback, if any.

Faithfulness note on the shadowing in the source: `finishRequest` declares
an outer local `std::string connectionString;` (default-empty) intended to
carry the derived key out of the lock scope, but the lock scope declares a
NEW variable `auto connectionString = ...`, so the outer one stays empty.
The empty-body branch (`info.query = connectionString`) and the parse-error
message (`... + ", request data: " + connectionString`) therefore read the
empty outer variable; `connectionStringOuter` below models it. -/
def handleBody (parse : String → Except String Json) (body : String) :
    Option GeoIpInformation :=
  let connectionStringOuter : String := ""
  if trimmedIsEmpty body then
    some { query := connectionStringOuter
           status := GeoIpStatus.FAIL
           data := none
           message := some "Empty response from server" }
  else
    match parse body with
    | Except.error e =>
        some { query := ""
               status := GeoIpStatus.FAIL
               data := none
               message := some ("JSON parse error: " ++ e ++ ", request data: "
                                  ++ connectionStringOuter) }
    | Except.ok jsonData =>
        if !(Json.containsKey jsonData "query")
            || !(Json.containsKey jsonData "status") then
          some { query := ""
                 status := GeoIpStatus.FAIL
                 data := none
                 message := some "Invalid response format: missing \x27query\x27 or \x27status\x27" }
        else
          if parseStatus jsonData = GeoIpStatus.SUCCESS then
            some { query := Json.valueStr jsonData "query" ""
                   status := parseStatus jsonData
                   data := some (successData jsonData)
                   message := none }
          else
            some { query := Json.valueStr jsonData "query" ""
                   status := parseStatus jsonData
                   data := none
                   message := some (Json.valueStr jsonData "message" "") }

/-- One completed transport event as the correlator sees it: the request
URL, the transport error flag (`reply->error()`), and the response body
(`reply->readAll()`). -/
structure Reply where
  url : String
  error : Bool
  body : String

/-- The reply handling that follows the map removal in `finishRequest`: a
transport-level error returns without invoking the callback (it is only
logged), otherwise the body is interpreted. -/
def handleReply (parse : String → Except String Json) (reply : Reply) :
    Option GeoIpInformation :=
  if reply.error then none else handleBody parse reply.body

/-- Result of one correlator step: the callback map afterwards, and the
handler invocations the step performed (handler together with the result
value it received), in order. -/
structure FinishResult (κ : Type) where
  map : CallbackMap κ
  invocations : List (κ × GeoIpInformation)
deriving DecidableEq

/-- `GeoIpResolver::finishRequest`: derive the key from the completed
request URL, look it up under the lock; when absent, return with the map
unchanged; when present, erase the entry, capture the callback, and then
(outside the lock) handle the reply, invoking the captured callback at most
once. -/
def finishRequest {κ : Type} (parse : String → Except String Json)
    (m : CallbackMap κ) (reply : Reply) : FinishResult κ :=
  match mapFind (extractKey reply.url) m with
  | none => { map := m, invocations := [] }
  | some callback =>
      match handleReply parse reply with
      | none => { map := mapErase (extractKey reply.url) m, invocations := [] }
      | some info =>
          { map := mapErase (extractKey reply.url) m
            invocations := [(callback, info)] }

/-- Whether the character list `pat` occurs at the start of `l`. -/
def startsList : List Char → List Char → Bool
  | [], _ => true
  | _ :: _, [] => false
  | p :: ps, c :: cs => p == c && startsList ps cs

/-- Whether the character list `pat` occurs contiguously anywhere in `l`. -/
def occursList (pat : List Char) : List Char → Bool
  | [] => startsList pat []
  | c :: cs => startsList pat (c :: cs) || occursList pat cs

/-- Whether the string `pat` occurs as a contiguous substring of `s`. -/
def strOccurs (s pat : String) : Bool :=
  occursList pat.data s.data

/-- A present field named `k` is not a number (so the string-typed
`jsonData.value(k, d)` of the library cannot raise). -/
def fieldTypedStr (j : Json) (k : String) : Bool :=
  match Json.getVal j k with
  | some (JsonVal.num _) => false
  | _ => true

/-- A present field named `k` is not a string (so the number-typed
`jsonData.value(k, d)` of the library cannot raise). -/
def fieldTypedNum (j : Json) (k : String) : Bool :=
  match Json.getVal j k with
  | some (JsonVal.str _) => false
  | _ => true

/-- The payload follows the upstream field schema: every textual field that
is present holds a string and `lat`/`lon`, when present, hold numbers.  On
such payloads the total field accessors of this embedding coincide with the
raising accessors of the original JSON library. -/
def wellTypedPayload (j : Json) : Bool :=
  fieldTypedStr j "query" && fieldTypedStr j "status" &&
  fieldTypedStr j "country" && fieldTypedStr j "countryCode" &&
  fieldTypedStr j "region" && fieldTypedStr j "regionName" &&
  fieldTypedStr j "city" && fieldTypedStr j "zip" &&
  fieldTypedNum j "lat" && fieldTypedNum j "lon" &&
  fieldTypedStr j "timezone" && fieldTypedStr j "isp" &&
  fieldTypedStr j "org" && fieldTypedStr j "as" &&
  fieldTypedStr j "message"

/-- The concrete payload of C7 with `query`, `status`, `country`, `lat` and
`lon` present and all other fields absent. -/
def payloadSuccessExample : Json :=
  [("query", JsonVal.str "8.8.8.8"),
   ("status", JsonVal.str "success"),
   ("country", JsonVal.str "United States"),
   ("lat", JsonVal.num (37.751 : Rat)),
   ("lon", JsonVal.num (-97.822 : Rat))]

/-- The concrete payload of C8: a `status` and a `message` field but no
`query` field. -/
def payloadNoQueryExample : Json :=
  [("status", JsonVal.str "fail"),
   ("message", JsonVal.str "invalid query")]

/-- The concrete payload of C10: a `status` field only, neither `query` nor
`message`. -/
def payloadStatusOnlyExample : Json :=
  [("status", JsonVal.str "fail")]

/-- Looking up a key right after overwriting it finds the new handler. -/
theorem mapFind_mapInsert_self {κ : Type} (k : String) (v : κ)
    (m : CallbackMap κ) : mapFind k (mapInsert k v m) = some v := by
  induction m with
  | nil => simp [mapInsert, mapFind]
  | cons hd tl ih =>
      obtain ⟨k₀, v₀⟩ := hd
      by_cases h : k₀ = k
      · simp [mapInsert, mapFind, h]
      · simp [mapInsert, mapFind, h, ih]

/-- A key that appears in no entry is not found. -/
theorem mapFind_eq_none_of_not_mem {κ : Type} (k : String) (m : CallbackMap κ)
    (h : k ∉ m.map Prod.fst) : mapFind k m = none := by
  induction m with
  | nil => rfl
  | cons hd tl ih =>
      obtain ⟨k₀, v₀⟩ := hd
      simp only [List.map_cons, List.mem_cons] at h
      push_neg at h
      simp [mapFind, Ne.symm h.1, ih h.2]

/-- When the map has pairwise-distinct keys (as `std::map` guarantees),
erasing a key makes it unfindable. -/
theorem mapFind_mapErase_self {κ : Type} (k : String) (m : CallbackMap κ)
    (hnd : (m.map Prod.fst).Nodup) : mapFind k (mapErase k m) = none := by
  induction m with
  | nil => rfl
  | cons hd tl ih =>
      obtain ⟨k₀, v₀⟩ := hd
      simp only [List.map_cons, List.nodup_cons] at hnd
      by_cases h : k₀ = k
      · subst h
        simpa [mapErase] using mapFind_eq_none_of_not_mem k₀ tl hnd.1
      · simp [mapErase, mapFind, h, ih hnd.2]

/-- `takeWhile` walks through a first block that satisfies the predicate
throughout. -/
theorem takeWhile_append_of_all {α : Type} (p : α → Bool) (l₁ l₂ : List α)
    (h : ∀ a ∈ l₁, p a = true) :
    (l₁ ++ l₂).takeWhile p = l₁ ++ l₂.takeWhile p := by
  induction l₁ with
  | nil => simp
  | cons a t ih =>
      have ha : p a = true := h a (by simp)
      simp only [List.cons_append, List.takeWhile_cons, ha, if_true]
      rw [ih (fun b hb => h b (by simp [hb]))]


/-- A key absent from the object makes the field lookup yield nothing. -/
theorem getVal_eq_none_of_containsKey_false (j : Json) (k : String)
    (h : Json.containsKey j k = false) : Json.getVal j k = none := by
  unfold Json.containsKey at h
  unfold Json.getVal
  have hf : j.find? (fun p => p.1 == k) = none := by
    rw [List.find?_eq_none]
    intro x hx hpx
    have hany : j.any (fun p => p.1 == k) = true := List.any_eq_true.mpr ⟨x, hx, hpx⟩
    rw [h] at hany
    exact Bool.noConfusion hany
  simp [hf]

/-- C9: for every parsed payload, the status mapping yields SUCCESS exactly
when the status field is present and equal to the string "success"; any
other value, and absence of the field, yield FAIL (never TIMEOUT). -/
theorem parseStatus_success_iff (jsonData : Json) :
    (parseStatus jsonData = GeoIpStatus.SUCCESS ↔
      Json.getVal jsonData "status" = some (JsonVal.str "success")) ∧
    parseStatus jsonData ≠ GeoIpStatus.TIMEOUT := by
  unfold parseStatus
  by_cases hc : Json.containsKey jsonData "status" = true
  · by_cases hv : Json.getVal jsonData "status" = some (JsonVal.str "success") <;>
      simp [hc, hv]
  · have h0 := getVal_eq_none_of_containsKey_false jsonData "status"
      (by simpa using hc)
    simp [hc, h0]

/-- C4 counterexample: at key "8.8.8.8" with handler 0 and an empty map, the
first side effect of `resolve` is issuing the request, not registering the
handler — the source calls `m_Manager->get(request)` before it stores the
callback, the opposite of the claimed order. -/
theorem resolve_first_event_is_issue_not_register :
    ((resolve "8.8.8.8" (0 : Nat) ([] : CallbackMap Nat)).2).head? ≠
        some (ResolveEvent.register "8.8.8.8" 0) ∧
    ((resolve "8.8.8.8" (0 : Nat) ([] : CallbackMap Nat)).2).head? =
        some (ResolveEvent.issueRequest "http://ip-api.com/json/8.8.8.8") := by
  decide

/-- C4 amended: every `resolve(key, onComplete)` call issues exactly one
outbound request embedding `key` and registers `onComplete` under `key`
(overwriting any existing entry), in that order: request first, then
registration. -/
theorem resolve_issues_request_then_registers {κ : Type} (key : String)
    (cb : κ) (m : CallbackMap κ) :
    (resolve key cb m).2 =
      [ResolveEvent.issueRequest (requestUrl key),
       ResolveEvent.register key cb] ∧
    mapFind key (resolve key cb m).1 = some cb :=
  ⟨rfl, mapFind_mapInsert_self key cb m⟩

/-- C5 counterexample: the key "a/b" is accepted by `resolve` (it is a
non-empty string), yet the trailing path segment the correlator derives from
the outbound URL is "b", not "a/b". -/
theorem extractKey_slash_key_mismatch :
    extractKey (requestUrl "a/b") = "b" ∧ ("b" : String) ≠ "a/b" := by
  decide

/-- C5 amended: for every lookup key that contains no slash character (which
covers every IP address and hostname), the key derived from the completed
request URL is byte-for-byte the key embedded at dispatch time. -/
theorem extractKey_requestUrl_roundtrip (key : String)
    (h : ∀ c ∈ key.data, (c != '/') = true) :
    extractKey (requestUrl key) = key := by
  unfold extractKey requestUrl
  rw [String.data_append, List.reverse_append]
  rw [takeWhile_append_of_all _ _ _ (fun c hc => h c (List.mem_reverse.mp hc))]
  have h2 : ("http://ip-api.com/json/".data.reverse).takeWhile
      (fun c => c != '/') = [] := by decide
  rw [h2, List.append_nil, List.reverse_reverse]

/-- Witness for the amended C5 at the key "8.8.8.8". -/
theorem extractKey_requestUrl_roundtrip_witness :
    (∀ c ∈ "8.8.8.8".data, (c != '/') = true) ∧
      extractKey (requestUrl "8.8.8.8") = "8.8.8.8" :=
  ⟨by decide, extractKey_requestUrl_roundtrip "8.8.8.8" (by decide)⟩

/-- C1 failing input: key "8.8.8.8" pending with handler 0, completed reply
carrying that key in its URL, no transport error, empty body.  The handler
does receive FAIL and "Empty response from server", but the query field of
the delivered result is the empty string, not the lookup key: the inner
`auto connectionString` shadows the outer variable that
`info.query = connectionString` later reads. -/
theorem finishRequest_empty_body_query_is_empty :
    finishRequest (fun _ => Except.error "") [("8.8.8.8", (0 : Nat))]
        { url := requestUrl "8.8.8.8", error := false, body := "" } =
      { map := [],
        invocations := [(0,
          { query := "", status := GeoIpStatus.FAIL, data := none,
            message := some "Empty response from server" })] } ∧
    ("" : String) ≠ "8.8.8.8" := by
  decide

/-- C2 failing input: key "8.8.8.8" pending with handler 0, completed reply
reporting a transport-level error.  The pending entry is erased, yet no
handler invocation happens: the error branch only logs and returns, so the
registered handler is never invoked at all, let alone with FAIL. -/
theorem finishRequest_transport_error_drops_handler :
    finishRequest (fun _ => Except.error "") [("8.8.8.8", (0 : Nat))]
        { url := requestUrl "8.8.8.8", error := true, body := "payload" } =
      { map := [], invocations := [] } := by
  decide

/-- C3 failing input: key "8.8.8.8" pending with handler 0, non-empty body
that the JSON parser rejects with diagnostic "unexpected end of input".  The
delivered message contains the parser diagnostic but not the lookup key:
the appended `connectionString` is the shadowed outer variable, which is
empty, so the message ends in "request data: " with nothing after it. -/
theorem finishRequest_parse_error_message_lacks_key :
    finishRequest (fun _ => Except.error "unexpected end of input")
        [("8.8.8.8", (0 : Nat))]
        { url := requestUrl "8.8.8.8", error := false, body := "not json" } =
      { map := [],
        invocations := [(0,
          { query := "", status := GeoIpStatus.FAIL, data := none,
            message :=
              some "JSON parse error: unexpected end of input, request data: " })] } ∧
    strOccurs "JSON parse error: unexpected end of input, request data: "
        "unexpected end of input" = true ∧
    strOccurs "JSON parse error: unexpected end of input, request data: "
        "8.8.8.8" = false := by
  decide

/-- When the derived key is pending, `finishRequest` erases it and the
invocation is whatever the reply handling produces for the captured
callback. -/
theorem finishRequest_eq_of_found {κ : Type}
    (parse : String → Except String Json) (m : CallbackMap κ) (reply : Reply)
    (cb : κ) (hfind : mapFind (extractKey reply.url) m = some cb) :
    finishRequest parse m reply =
      match handleReply parse reply with
      | none => { map := mapErase (extractKey reply.url) m, invocations := [] }
      | some info =>
          { map := mapErase (extractKey reply.url) m
            invocations := [(cb, info)] } := by
  unfold finishRequest
  rw [hfind]

/-- Without a transport error, the reply handling is the body handling. -/
theorem handleReply_no_error
    (parse : String → Except String Json) (reply : Reply)
    (herr : reply.error = false) :
    handleReply parse reply = handleBody parse reply.body := by
  simp [handleReply, herr]

/-- Shared shape of the missing-required-field branch of the body
handling. -/
theorem handleBody_missing_fields
    (parse : String → Except String Json) (body : String) (jsonData : Json)
    (hbody : trimmedIsEmpty body = false)
    (hparse : parse body = Except.ok jsonData)
    (hmiss : (Json.containsKey jsonData "query"
               && Json.containsKey jsonData "status") = false) :
    handleBody parse body =
      some { query := "", status := GeoIpStatus.FAIL, data := none,
             message :=
               some "Invalid response format: missing \x27query\x27 or \x27status\x27" } := by
  unfold handleBody
  have hcond : (!(Json.containsKey jsonData "query")
      || !(Json.containsKey jsonData "status")) = true := by
    rw [← Bool.not_and, hmiss]
    rfl
  simp [hbody, hparse, hcond]

/-- C6: whenever the key derived from the completed request URL is pending
(in a map with the unique keys `std::map` guarantees), the correlator leaves
behind exactly the map with that entry erased, the key is no longer present
afterwards, and the captured handler is invoked at most once for the
completion event. -/
theorem finishRequest_removes_entry_once {κ : Type}
    (parse : String → Except String Json) (m : CallbackMap κ) (reply : Reply)
    (cb : κ) (hnd : (m.map Prod.fst).Nodup)
    (hfind : mapFind (extractKey reply.url) m = some cb) :
    (finishRequest parse m reply).map = mapErase (extractKey reply.url) m ∧
    mapFind (extractKey reply.url) (finishRequest parse m reply).map = none ∧
    (finishRequest parse m reply).invocations.length ≤ 1 ∧
    ∀ p ∈ (finishRequest parse m reply).invocations, p.1 = cb := by
  rw [finishRequest_eq_of_found parse m reply cb hfind]
  cases handleReply parse reply with
  | none => simp [mapFind_mapErase_self _ _ hnd]
  | some info => simp [mapFind_mapErase_self _ _ hnd]

/-- Witness for C6 at key "8.8.8.8", handler 0, an error-free empty-body
reply. -/
theorem finishRequest_removes_entry_once_witness :
    (([("8.8.8.8", (0 : Nat))].map Prod.fst).Nodup) ∧
    mapFind (extractKey (requestUrl "8.8.8.8")) [("8.8.8.8", (0 : Nat))] =
      some 0 ∧
    ((finishRequest (fun _ => Except.error "") [("8.8.8.8", (0 : Nat))]
        { url := requestUrl "8.8.8.8", error := false, body := "" }).map =
      mapErase (extractKey (requestUrl "8.8.8.8")) [("8.8.8.8", (0 : Nat))] ∧
    mapFind (extractKey (requestUrl "8.8.8.8"))
        (finishRequest (fun _ => Except.error "") [("8.8.8.8", (0 : Nat))]
          { url := requestUrl "8.8.8.8", error := false, body := "" }).map =
      none ∧
    (finishRequest (fun _ => Except.error "") [("8.8.8.8", (0 : Nat))]
        { url := requestUrl "8.8.8.8", error := false,
          body := "" }).invocations.length ≤ 1 ∧
    ∀ p ∈ (finishRequest (fun _ => Except.error "") [("8.8.8.8", (0 : Nat))]
        { url := requestUrl "8.8.8.8", error := false,
          body := "" }).invocations, p.1 = 0) :=
  ⟨by decide, by decide,
   finishRequest_removes_entry_once (fun _ => Except.error "")
     [("8.8.8.8", (0 : Nat))]
     { url := requestUrl "8.8.8.8", error := false, body := "" } 0
     (by decide) (by decide)⟩

/-- C7: a well-formed payload carrying both required fields and the status
string "success" makes the correlator invoke the pending handler exactly
once with SUCCESS and with the twelve data fields read from the payload,
every textual field defaulting to the empty string and every numeric field
to zero when absent. -/
theorem finishRequest_success_populates_data {κ : Type}
    (parse : String → Except String Json) (m : CallbackMap κ) (reply : Reply)
    (cb : κ) (jsonData : Json)
    (hfind : mapFind (extractKey reply.url) m = some cb)
    (herr : reply.error = false)
    (hbody : trimmedIsEmpty reply.body = false)
    (hparse : parse reply.body = Except.ok jsonData)
    (hq : Json.containsKey jsonData "query" = true)
    (hs : Json.containsKey jsonData "status" = true)
    (hsucc : Json.getVal jsonData "status" = some (JsonVal.str "success"))
    (_hty : wellTypedPayload jsonData = true) :
    (finishRequest parse m reply).invocations =
      [(cb,
        { query := Json.valueStr jsonData "query" ""
          status := GeoIpStatus.SUCCESS
          data := some
            { country := Json.valueStr jsonData "country" ""
              countryCode := Json.valueStr jsonData "countryCode" ""
              region := Json.valueStr jsonData "region" ""
              regionName := Json.valueStr jsonData "regionName" ""
              city := Json.valueStr jsonData "city" ""
              zip := Json.valueStr jsonData "zip" ""
              lat := Json.valueNum jsonData "lat" 0
              lon := Json.valueNum jsonData "lon" 0
              timezone := Json.valueStr jsonData "timezone" ""
              isp := Json.valueStr jsonData "isp" ""
              org := Json.valueStr jsonData "org" ""
              as := Json.valueStr jsonData "as" "" }
          message := none })] := by
  have hps : parseStatus jsonData = GeoIpStatus.SUCCESS := by
    unfold parseStatus
    simp [hs, hsucc]
  rw [finishRequest_eq_of_found parse m reply cb hfind,
    handleReply_no_error parse reply herr]
  unfold handleBody
  simp [hbody, hparse, hq, hs, hps, successData]

/-- Witness for C7 at the payload of the claim: country "United States",
lat 37.751, lon -97.822, every other string field empty. -/
theorem finishRequest_success_populates_data_witness :
    mapFind (extractKey (requestUrl "8.8.8.8")) [("8.8.8.8", (0 : Nat))] =
      some 0 ∧
    trimmedIsEmpty "payload" = false ∧
    Json.containsKey payloadSuccessExample "query" = true ∧
    Json.containsKey payloadSuccessExample "status" = true ∧
    Json.getVal payloadSuccessExample "status" =
      some (JsonVal.str "success") ∧
    wellTypedPayload payloadSuccessExample = true ∧
    (finishRequest (fun _ => Except.ok payloadSuccessExample)
        [("8.8.8.8", (0 : Nat))]
        { url := requestUrl "8.8.8.8", error := false,
          body := "payload" }).invocations =
      [(0,
        { query := "8.8.8.8"
          status := GeoIpStatus.SUCCESS
          data := some
            { country := "United States", countryCode := "", region := ""
              regionName := "", city := "", zip := ""
              lat := (37.751 : Rat), lon := (-97.822 : Rat)
              timezone := "", isp := "", org := "", as := "" }
          message := none })] :=
  ⟨by decide, by decide, by decide, by decide, by decide, by decide,
   (finishRequest_success_populates_data (fun _ => Except.ok payloadSuccessExample)
      [("8.8.8.8", (0 : Nat))]
      { url := requestUrl "8.8.8.8", error := false, body := "payload" }
      0 payloadSuccessExample (by decide) rfl (by decide) rfl (by decide)
      (by decide) (by decide) (by decide)).trans (by rfl)⟩

/-- C8: a parsed payload missing the `query` field or the `status` field
makes the correlator invoke the pending handler with FAIL and exactly the
message "Invalid response format: missing 'query' or 'status'". -/
theorem finishRequest_missing_fields_message {κ : Type}
    (parse : String → Except String Json) (m : CallbackMap κ) (reply : Reply)
    (cb : κ) (jsonData : Json)
    (hfind : mapFind (extractKey reply.url) m = some cb)
    (herr : reply.error = false)
    (hbody : trimmedIsEmpty reply.body = false)
    (hparse : parse reply.body = Except.ok jsonData)
    (hmiss : (Json.containsKey jsonData "query"
               && Json.containsKey jsonData "status") = false) :
    (finishRequest parse m reply).invocations =
      [(cb,
        { query := "", status := GeoIpStatus.FAIL, data := none,
          message :=
            some "Invalid response format: missing \x27query\x27 or \x27status\x27" })] := by
  rw [finishRequest_eq_of_found parse m reply cb hfind,
    handleReply_no_error parse reply herr,
    handleBody_missing_fields parse reply.body jsonData hbody hparse hmiss]

/-- Witness for C8 at the payload of the claim. -/
theorem finishRequest_missing_fields_message_witness :
    mapFind (extractKey (requestUrl "8.8.8.8")) [("8.8.8.8", (0 : Nat))] =
      some 0 ∧
    trimmedIsEmpty "payload" = false ∧
    (Json.containsKey payloadNoQueryExample "query"
      && Json.containsKey payloadNoQueryExample "status") = false ∧
    (finishRequest (fun _ => Except.ok payloadNoQueryExample)
        [("8.8.8.8", (0 : Nat))]
        { url := requestUrl "8.8.8.8", error := false,
          body := "payload" }).invocations =
      [(0,
        { query := "", status := GeoIpStatus.FAIL, data := none,
          message :=
            some "Invalid response format: missing \x27query\x27 or \x27status\x27" })] :=
  ⟨by decide, by decide, by decide,
   finishRequest_missing_fields_message (fun _ => Except.ok payloadNoQueryExample)
     [("8.8.8.8", (0 : Nat))]
     { url := requestUrl "8.8.8.8", error := false, body := "payload" }
     0 payloadNoQueryExample (by decide) rfl (by decide) rfl (by decide)⟩

/-- C10: on the missing-required-field path the delivered result has an
empty `query` (the lookup key is never copied into it), no `data`, and a
present `message`. -/
theorem finishRequest_missing_fields_result_shape {κ : Type}
    (parse : String → Except String Json) (m : CallbackMap κ) (reply : Reply)
    (cb : κ) (jsonData : Json)
    (hfind : mapFind (extractKey reply.url) m = some cb)
    (herr : reply.error = false)
    (hbody : trimmedIsEmpty reply.body = false)
    (hparse : parse reply.body = Except.ok jsonData)
    (hmiss : (Json.containsKey jsonData "query"
               && Json.containsKey jsonData "status") = false) :
    ∃ info, (finishRequest parse m reply).invocations = [(cb, info)] ∧
      info.query = "" ∧ info.data = none ∧ info.message.isSome = true := by
  refine ⟨{ query := "", status := GeoIpStatus.FAIL, data := none,
            message :=
              some "Invalid response format: missing \x27query\x27 or \x27status\x27" },
    ?_, rfl, rfl, rfl⟩
  rw [finishRequest_eq_of_found parse m reply cb hfind,
    handleReply_no_error parse reply herr,
    handleBody_missing_fields parse reply.body jsonData hbody hparse hmiss]

/-- Witness for C10 at a payload carrying only a `status` field. -/
theorem finishRequest_missing_fields_result_shape_witness :
    mapFind (extractKey (requestUrl "8.8.8.8")) [("8.8.8.8", (0 : Nat))] =
      some 0 ∧
    trimmedIsEmpty "payload" = false ∧
    (Json.containsKey payloadStatusOnlyExample "query"
      && Json.containsKey payloadStatusOnlyExample "status") = false ∧
    (∃ info,
      (finishRequest (fun _ => Except.ok payloadStatusOnlyExample)
          [("8.8.8.8", (0 : Nat))]
          { url := requestUrl "8.8.8.8", error := false,
            body := "payload" }).invocations = [(0, info)] ∧
      info.query = "" ∧ info.data = none ∧ info.message.isSome = true) :=
  ⟨by decide, by decide, by decide,
   finishRequest_missing_fields_result_shape
     (fun _ => Except.ok payloadStatusOnlyExample)
     [("8.8.8.8", (0 : Nat))]
     { url := requestUrl "8.8.8.8", error := false, body := "payload" }
     0 payloadStatusOnlyExample (by decide) rfl (by decide) rfl (by decide)⟩
